import Mathlib

/-!
Verification of `ricexpro.py`: a shallow embedding of the program's data
model and operations, with theorems settling the specification's claims.

The program searches the RiceXPro site for a gene, scrapes two image URLs
from a result element, downloads both images, concatenates them side by
side, displays the result, and loops until no hit is found.

External collaborators (PIL, requests, selenium, matplotlib) are modelled
at their observable interfaces: PIL images as in-memory rasters, HTTP as a
function from URLs to responses, the DOM as the presence/absence of
elements, and effects as an explicit event trace.
-/

namespace Ricexpro

/-- An RGB pixel value, as held by a PIL raster in a fixed color model. -/
structure RGB where
  r : Nat
  g : Nat
  b : Nat
deriving DecidableEq, Repr

/-- An in-memory decoded bitmap: PIL's `Image` at the interface the program
uses — a mode string, a size, and pixel data.  The pixel function is total;
only coordinates inside `width × height` are meaningful. -/
structure RasterImage where
  mode : String
  width : Nat
  height : Nat
  pixel : Nat → Nat → RGB

/-- PIL `Image.new(mode, size)`: a fresh raster of the given mode and size.
PIL's default fill colour argument is `0`, i.e. black `(0, 0, 0)`. -/
def imageNew (mode : String) (w h : Nat) : RasterImage :=
  { mode := mode, width := w, height := h, pixel := fun _ _ => ⟨0, 0, 0⟩ }

/-- PIL `base.paste(img, (ox, oy))` (no mask): copies `img`'s pixels into
`base` at offset `(ox, oy)`, clipped to `base`'s bounds; pixels outside the
pasted region keep `base`'s value.  Mode and size of `base` are unchanged. -/
def RasterImage.paste (base img : RasterImage) (ox oy : Nat) : RasterImage :=
  { base with pixel := fun x y =>
      if ox ≤ x ∧ x < ox + img.width ∧ oy ≤ y ∧ y < oy + img.height ∧
         x < base.width ∧ y < base.height
      then img.pixel (x - ox) (y - oy)
      else base.pixel x y }

/-- `concatenate_images_horizontally(image1, image2)` from `ricexpro.py`:
creates a new `RGB` image of width `width1 + width2` and height
`max(height1, height2)`, pastes `image1` at `(0, 0)` and `image2` at
`(width1, 0)`. -/
def concatenate_images_horizontally (image1 image2 : RasterImage) : RasterImage :=
  let width1 := image1.width
  let height1 := image1.height
  let width2 := image2.width
  let height2 := image2.height
  let new_image := imageNew "RGB" (width1 + width2) (max height1 height2)
  let new_image := new_image.paste image1 0 0
  let new_image := new_image.paste image2 width1 0
  new_image

/-- An HTTP response as `requests` exposes it to this program: a numeric
status code and a byte body (`response.content`). -/
structure HttpResponse where
  status : Nat
  content : List Nat

/-- Failures of `download_image`: `requests.HTTPError` raised by
`response.raise_for_status()` (the spec's `FetchError`), or PIL failing to
decode the body in `Image.open` (the spec's `DecodeError`). -/
inductive DownloadError where
  | httpError (status : Nat)
  | decodeError
deriving DecidableEq, Repr

/-- `response.raise_for_status()` from `requests`: raises `HTTPError`
exactly for 4xx client errors and 5xx server errors, i.e. when
`400 <= status_code < 600`; any other status passes silently. -/
def raise_for_status (response : HttpResponse) : Except DownloadError Unit :=
  if 400 ≤ response.status ∧ response.status < 600
  then .error (.httpError response.status)
  else .ok ()

/-- `download_image(url)` from `ricexpro.py`: one `requests.get(url)`, then
`raise_for_status()`, then `Image.open(BytesIO(response.content))`.  The
HTTP layer is the function `get`; PIL's decoder is the function `decode`
(`none` = the body is not a valid image, `Image.open` raises).  The first
component records the GET requests issued (exactly one, no retry); errors
propagate to the caller as the `Except`. -/
def download_image (get : String → HttpResponse)
    (decode : List Nat → Option RasterImage) (url : String) :
    List String × Except DownloadError RasterImage :=
  let response := get url
  ([url],
    match raise_for_status response with
    | .error e => .error e
    | .ok () => match decode response.content with
      | none => .error .decodeError
      | some img => .ok img)

/-- Observable effects of a run, in order. -/
inductive Event where
  | nav (url : String)
  | sendKeys (text : String)
  | click
  | httpGet (url : String)
  | printed (msg : String)
  | displayed
  | quit
deriving DecidableEq, Repr

/-- The external world a run interacts with: whether the DOM has the search
box and button, the `graph-link` element's two attributes (`none` =
`NoSuchElementException`), the HTTP layer, and PIL's decoder.  It is fixed
for the whole process, so every loop iteration sees the same world. -/
structure Env where
  hasSearchBox : Bool
  hasSearchButton : Bool
  graphLink : Option (String × String)
  get : String → HttpResponse
  decode : List Nat → Option RasterImage

/-- Errors that propagate out of `main`: an uncaught
`NoSuchElementException` while locating the search box or button, or a
`download_image` failure. -/
inductive RunErr where
  | driverError
  | downloadError (e : DownloadError)
deriving DecidableEq, Repr

/-- The two ways the Python `main` returns: the explicit `return False` on
the no-hit path, and falling off the end of the function (`None`). -/
inductive PyRet where
  | retFalse
  | retNone
deriving DecidableEq, Repr

/-- Python truthiness of `main`'s return value, as tested by
`if not main(args.gene)`: both `False` and `None` are falsy. -/
def PyRet.truthy : PyRet → Bool
  | .retFalse => false
  | .retNone => false

/-- The fixed site URL, used both for navigation and as the prefix `pre`
resolving the two relative image paths. -/
def baseURL : String := "https://ricexpro.dna.affrc.go.jp/RXP_4001/"

/-- The body of `main`'s `try:` block, yielding the event trace and the
outcome.  Note that the query typed into the search box (line 50) and the
no-hits message (line 57) both read the process-global `args.gene`
(`argsGene` here), not the `gene` parameter, which is unused. -/
def mainBody (gene : String) (argsGene : String) (env : Env) :
    List Event × Except RunErr PyRet :=
  let evNav : List Event := [.nav baseURL]
  if env.hasSearchBox = false then (evNav, .error .driverError)
  else if env.hasSearchButton = false then (evNav, .error .driverError)
  else
    let evSearch : List Event := evNav ++ [.sendKeys argsGene, .click]
    match env.graphLink with
    | none => (evSearch ++ [.printed ("No hits for " ++ argsGene)], .ok .retFalse)
    | some (devAttr, tissueAttr) =>
      let pre := baseURL
      let dev := pre ++ devAttr
      let tissue := pre ++ tissueAttr
      let r1 := download_image env.get env.decode dev
      match r1.2 with
      | .error e => (evSearch ++ r1.1.map .httpGet, .error (.downloadError e))
      | .ok image1 =>
        let r2 := download_image env.get env.decode tissue
        match r2.2 with
        | .error e =>
          (evSearch ++ r1.1.map .httpGet ++ r2.1.map .httpGet,
            .error (.downloadError e))
        | .ok image2 =>
          let _im := concatenate_images_horizontally image1 image2
          (evSearch ++ r1.1.map .httpGet ++ r2.1.map .httpGet ++ [.displayed],
            .ok .retNone)

/-- `main(gene)` from `ricexpro.py`: creates the WebDriver session, runs the
body in a `try:` whose `finally:` executes `driver.quit()` on every exit
path — normal, `return False`, or a propagating error. -/
def main (gene : String) (argsGene : String) (env : Env) :
    List Event × Except RunErr PyRet :=
  let r := mainBody gene argsGene env
  (r.1 ++ [.quit], r.2)

/-- How the `while True` loop ends: the `break` (loop finished), an error
propagating out of `main` (ending the process), or — never reached by this
program — running out of modelling fuel. -/
inductive LoopStatus where
  | finished
  | errored (e : RunErr)
  | outOfFuel
deriving DecidableEq, Repr

/-- The `__main__` block's loop: `while True: if not main(args.gene): break`,
fuel-indexed.  Each iteration calls `main(args.gene)`; a falsy return breaks,
a truthy return loops, an exception propagates. -/
def runLoop (argsGene : String) (env : Env) : Nat → List Event × LoopStatus
  | 0 => ([], .outOfFuel)
  | n + 1 =>
    let r := main argsGene argsGene env
    match r.2 with
    | .error e => (r.1, .errored e)
    | .ok ret =>
      if ret.truthy then
        let rest := runLoop argsGene env n
        (r.1 ++ rest.1, rest.2)
      else (r.1, .finished)

/-- A small concrete decoded image, for instantiating theorems. -/
def sampleImage : RasterImage :=
  { mode := "RGB", width := 2, height := 3, pixel := fun _ _ => ⟨7, 7, 7⟩ }

/-- A 100×50 input image whose pixels are all `(1, 1, 1)`. -/
def imgA100x50 : RasterImage :=
  { mode := "L", width := 100, height := 50, pixel := fun _ _ => ⟨1, 1, 1⟩ }

/-- An 80×70 input image whose pixels are all `(2, 2, 2)`. -/
def imgB80x70 : RasterImage :=
  { mode := "RGB", width := 80, height := 70, pixel := fun _ _ => ⟨2, 2, 2⟩ }

/-- The output of the compositor on the 100×50 / 80×70 scenario inputs. -/
def outAB : RasterImage := concatenate_images_horizontally imgA100x50 imgB80x70

/-- A world in which the search succeeds: the `graph-link` element exists
with two attribute paths, every GET returns 200 with a decodable body. -/
def foundEnv : Env :=
  { hasSearchBox := true, hasSearchButton := true,
    graphLink := some ("dev.png", "tissue.png"),
    get := fun _ => ⟨200, [0]⟩, decode := fun _ => some sampleImage }

/-- A world in which the `graph-link` element is absent: locating it raises
`NoSuchElementException`. -/
def noHitEnv : Env :=
  { hasSearchBox := true, hasSearchButton := true, graphLink := none,
    get := fun _ => ⟨200, [0]⟩, decode := fun _ => some sampleImage }

/-- A world in which the search finds a hit but every GET returns 404, so
the first download fails. -/
def fetchFailEnv : Env :=
  { hasSearchBox := true, hasSearchButton := true,
    graphLink := some ("dev.png", "tissue.png"),
    get := fun _ => ⟨404, [0]⟩, decode := fun _ => some sampleImage }

/-- Modelled from the spec: "fails with `FetchError` when the HTTP response
status is not successful" / "raises on non-2xx" — the successful class of
HTTP status codes is 2xx, i.e. `200 ≤ status < 300`.  Used to compare the
spec's wording with what `raise_for_status` actually does. -/
def spec_successful_2xx (status : Nat) : Bool :=
  decide (200 ≤ status) && decide (status < 300)

section CompositorLemmas

variable (a b : RasterImage)

lemma concat_width : (concatenate_images_horizontally a b).width = a.width + b.width := rfl

lemma concat_height :
    (concatenate_images_horizontally a b).height = max a.height b.height := rfl

lemma concat_mode : (concatenate_images_horizontally a b).mode = "RGB" := rfl

lemma concat_pixel_def (x y : Nat) :
    (concatenate_images_horizontally a b).pixel x y =
      if a.width ≤ x ∧ x < a.width + b.width ∧ 0 ≤ y ∧ y < 0 + b.height ∧
         x < a.width + b.width ∧ y < max a.height b.height
      then b.pixel (x - a.width) (y - 0)
      else if 0 ≤ x ∧ x < 0 + a.width ∧ 0 ≤ y ∧ y < 0 + a.height ∧
              x < a.width + b.width ∧ y < max a.height b.height
      then a.pixel (x - 0) (y - 0)
      else ⟨0, 0, 0⟩ := rfl

/-- Left region: where `a` was pasted, the output holds `a`'s pixel. -/
lemma concat_pixel_left {x y : Nat} (hx : x < a.width) (hy : y < a.height) :
    (concatenate_images_horizontally a b).pixel x y = a.pixel x y := by
  rw [concat_pixel_def]
  rw [if_neg (by omega), if_pos (by constructor <;> omega)]
  simp

/-- Right region: where `b` was pasted, the output holds `b`'s pixel. -/
lemma concat_pixel_right {x y : Nat} (hx₁ : a.width ≤ x) (hx₂ : x < a.width + b.width)
    (hy : y < b.height) :
    (concatenate_images_horizontally a b).pixel x y = b.pixel (x - a.width) y := by
  rw [concat_pixel_def]
  rw [if_pos (by refine ⟨hx₁, hx₂, Nat.zero_le y, ?_, hx₂, ?_⟩ <;> omega)]
  simp

/-- Uncovered region: any output coordinate covered by neither pasted
region holds the default fill, black. -/
lemma concat_pixel_default {x y : Nat}
    (hA : ¬ (x < a.width ∧ y < a.height))
    (hB : ¬ (a.width ≤ x ∧ y < b.height)) :
    (concatenate_images_horizontally a b).pixel x y = ⟨0, 0, 0⟩ := by
  rw [concat_pixel_def]
  rw [if_neg (by omega), if_neg (by omega)]

end CompositorLemmas

section RunLemmas

/-- Both possible returns of the Python `main` — `False` and `None` — are
falsy, so `if not main(args.gene)` always breaks the loop. -/
lemma truthy_false (r : PyRet) : r.truthy = false := by cases r <;> rfl

lemma main_fst (g a : String) (env : Env) :
    (main g a env).1 = (mainBody g a env).1 ++ [Event.quit] := rfl

lemma main_snd (g a : String) (env : Env) : (main g a env).2 = (mainBody g a env).2 := rfl

lemma download_image_fst (get : String → HttpResponse)
    (decode : List Nat → Option RasterImage) (url : String) :
    (download_image get decode url).1 = [url] := rfl

/-- The body of the `try:` block never executes `driver.quit()`; only the
`finally:` does. -/
lemma quit_not_mem_mainBody (g a : String) (env : Env) :
    Event.quit ∉ (mainBody g a env).1 := by
  cases h1 : env.hasSearchBox with
  | false => simp [mainBody, h1]
  | true =>
    cases h2 : env.hasSearchButton with
    | false => simp [mainBody, h1, h2]
    | true =>
      cases h3 : env.graphLink with
      | none => simp [mainBody, h1, h2, h3]
      | some p =>
        obtain ⟨d, t⟩ := p
        simp only [mainBody, h1, h2, h3, download_image_fst, Bool.true_eq_false,
          if_false, ite_false]
        cases hr1 : (download_image env.get env.decode (baseURL ++ d)).2 with
        | error e => simp
        | ok img1 =>
          cases hr2 : (download_image env.get env.decode (baseURL ++ t)).2 with
          | error e => simp
          | ok img2 => simp

/-- With any positive fuel, the loop performs exactly one call of `main` and
ends: both returns are falsy, and an error also ends it. -/
lemma runLoop_one_tick (g : String) (env : Env) (n : Nat) :
    runLoop g env (n + 1) =
      ((main g g env).1,
        match (main g g env).2 with
        | .error e => .errored e
        | .ok _ => .finished) := by
  cases hm : (main g g env).2 with
  | error e => simp [runLoop, hm]
  | ok ret => simp [runLoop, hm, truthy_false]

lemma getLast?_append_singleton {α : Type} (l : List α) (x : α) :
    (l ++ [x]).getLast? = some x := by
  induction l with
  | nil => rfl
  | cons y ys ih =>
    rw [List.cons_append, List.getLast?_cons]
    simp [ih]

end RunLemmas

/-- Claim C2: for all valid raster images `a` and `b`, the output of
`concatenate_images_horizontally a b` has width `a.width + b.width` and
height `max a.height b.height`. -/
theorem concat_output_dimensions (a b : RasterImage) :
    (concatenate_images_horizontally a b).width = a.width + b.width ∧
    (concatenate_images_horizontally a b).height = max a.height b.height :=
  ⟨concat_width a b, concat_height a b⟩

/-- Claim C3: in the output of `concatenate_images_horizontally a b`, a
coordinate with `x < a.width` and `y < a.height` holds `a`'s pixel at
`(x, y)`, and a coordinate with `a.width ≤ x` (inside the output) and
`y < b.height` holds `b`'s pixel at `(x - a.width, y)`. -/
theorem concat_pixel_content (a b : RasterImage) (x y : Nat) :
    (x < a.width → y < a.height →
      (concatenate_images_horizontally a b).pixel x y = a.pixel x y) ∧
    (a.width ≤ x → x < a.width + b.width → y < b.height →
      (concatenate_images_horizontally a b).pixel x y = b.pixel (x - a.width) y) :=
  ⟨fun hx hy => concat_pixel_left a b hx hy,
   fun hx₁ hx₂ hy => concat_pixel_right a b hx₁ hx₂ hy⟩

/-- Witness for C3 at concrete inputs: pixel `(3, 4)` comes from the left
image and pixel `(150, 10)` comes from the right image at `(50, 10)`. -/
theorem concat_pixel_content_witness :
    (concatenate_images_horizontally imgA100x50 imgB80x70).pixel 3 4 =
      imgA100x50.pixel 3 4 ∧
    (concatenate_images_horizontally imgA100x50 imgB80x70).pixel 150 10 =
      imgB80x70.pixel 50 10 :=
  ⟨(concat_pixel_content imgA100x50 imgB80x70 3 4).1 (by decide) (by decide),
   (concat_pixel_content imgA100x50 imgB80x70 150 10).2 (by decide) (by decide) (by decide)⟩

set_option maxRecDepth 8000 in
/-- Claim C4 (counterexample): on the spec's scenario inputs — `a` 100×50,
`b` 80×70 — the output is 180×70, but inside the default-filled band below
`a` (row 60) there are 100 default-filled columns, not 80: the gap below
`a`'s region measures 100×20, so the claimed "80×20" measurement is false. -/
theorem scenario_gap_row_has_100_default_pixels :
    outAB.width = 180 ∧ outAB.height = 70 ∧
    ((Finset.range outAB.width).filter
      (fun x => outAB.pixel x 60 = ⟨0, 0, 0⟩)).card = 100 := by
  refine ⟨rfl, rfl, ?_⟩
  decide

/-- Claim C4 (amended): when `a` is 100×50 and `b` is 80×70 the output is
180×70, and the default-filled gap below `a`'s region measures 100×20: it
is exactly the set of output coordinates with `x < 100` and `50 ≤ y < 70`. -/
theorem scenario_gap_is_100x20 :
    outAB.width = 180 ∧ outAB.height = 70 ∧
    (∀ x y : Nat, x < 100 → 50 ≤ y → y < 70 → outAB.pixel x y = ⟨0, 0, 0⟩) ∧
    (∀ x y : Nat, x < 180 → y < 70 → outAB.pixel x y = ⟨0, 0, 0⟩ →
      x < 100 ∧ 50 ≤ y) := by
  have hwA : imgA100x50.width = 100 := rfl
  have hhA : imgA100x50.height = 50 := rfl
  have hwB : imgB80x70.width = 80 := rfl
  have hhB : imgB80x70.height = 70 := rfl
  refine ⟨rfl, rfl, ?_, ?_⟩
  · intro x y hx h50 h70
    exact concat_pixel_default imgA100x50 imgB80x70 (by omega) (by omega)
  · intro x y hx hy hblack
    simp only [outAB] at hblack
    have hx100 : x < 100 := by
      by_contra hge
      push_neg at hge
      have hpix := @concat_pixel_right imgA100x50 imgB80x70 x y
        (by omega) (by omega) (by omega)
      rw [hpix] at hblack
      simp [imgB80x70] at hblack
    have hy50 : 50 ≤ y := by
      by_contra hlt
      push_neg at hlt
      have hpix := @concat_pixel_left imgA100x50 imgB80x70 x y (by omega) (by omega)
      rw [hpix] at hblack
      simp [imgA100x50] at hblack
    exact ⟨hx100, hy50⟩

/-- Witness for the amended C4: the gap contains `(0, 50)`, and the black
pixel at `(85, 60)` indeed lies in the 100×20 gap rectangle. -/
theorem scenario_gap_is_100x20_witness :
    outAB.pixel 0 50 = ⟨0, 0, 0⟩ ∧ (85 < 100 ∧ 50 ≤ 60) :=
  ⟨scenario_gap_is_100x20.2.2.1 0 50 (by decide) (by decide) (by decide),
   scenario_gap_is_100x20.2.2.2 85 60 (by decide) (by decide) (by decide)⟩

/-- Claim C5: `concatenate_images_horizontally` is deterministic — identical
input images yield identical (byte-identical) outputs.  In this embedding
the operation is a pure function of its two arguments (it reads nothing
else and mutates nothing), so determinism is congruence. -/
theorem concat_deterministic (a b a' b' : RasterImage) (ha : a = a') (hb : b = b') :
    concatenate_images_horizontally a b = concatenate_images_horizontally a' b' := by
  rw [ha, hb]

/-- Witness for C5 at concrete inputs. -/
theorem concat_deterministic_witness :
    concatenate_images_horizontally sampleImage imgB80x70 =
      concatenate_images_horizontally sampleImage imgB80x70 :=
  concat_deterministic sampleImage imgB80x70 sampleImage imgB80x70 rfl rfl

/-- Claim C10: the compositor's output always has the `RGB` color model, and
every output pixel covered by neither input's pasted region is exactly black
`(0, 0, 0)`, whatever the input heights. -/
theorem concat_rgb_mode_and_default_black (a b : RasterImage) (x y : Nat)
    (hA : ¬ (x < a.width ∧ y < a.height))
    (hB : ¬ (a.width ≤ x ∧ y < b.height)) :
    (concatenate_images_horizontally a b).mode = "RGB" ∧
    (concatenate_images_horizontally a b).pixel x y = ⟨0, 0, 0⟩ :=
  ⟨concat_mode a b, concat_pixel_default a b hA hB⟩

/-- Witness for C10: coordinate `(50, 60)` of the 100×50 / 80×70 composite
is below `a` and left of `b`, and is black; the mode is `RGB`. -/
theorem concat_rgb_mode_and_default_black_witness :
    (concatenate_images_horizontally imgA100x50 imgB80x70).mode = "RGB" ∧
    (concatenate_images_horizontally imgA100x50 imgB80x70).pixel 50 60 = ⟨0, 0, 0⟩ :=
  concat_rgb_mode_and_default_black imgA100x50 imgB80x70 50 60 (by decide) (by decide)

/-- Claim C1 (code behaviour at the failing input): in a world where the
search finds the `graph-link` element and both downloads succeed, the run
fetches both images and displays once — but then the loop terminates:
`main` falls off the end of its `try:` block returning `None`, which is
falsy, so `if not main(args.gene): break` fires.  With fuel 5 the loop
still performs only one navigation, one display, and ends `finished`,
refuting "remain RUNNING, tick again". -/
theorem loop_found_single_tick :
    runLoop "OsABC" foundEnv 5 =
      ([.nav baseURL, .sendKeys "OsABC", .click,
        .httpGet "https://ricexpro.dna.affrc.go.jp/RXP_4001/dev.png",
        .httpGet "https://ricexpro.dna.affrc.go.jp/RXP_4001/tissue.png",
        .displayed, .quit], .finished) := rfl

/-- Claim C6: when the result element is absent (`NoSuchElementException`
on the `graph-link` selector) the run prints the no-hits notice, never
issues an HTTP GET, quits the driver, and the loop finishes after exactly
that one tick with a normal (non-error) outcome. -/
theorem loop_notfound_single_tick (g : String) (env : Env) (fuel : Nat)
    (hf : 1 ≤ fuel) (h1 : env.hasSearchBox = true) (h2 : env.hasSearchButton = true)
    (h3 : env.graphLink = none) :
    runLoop g env fuel =
      ([.nav baseURL, .sendKeys g, .click, .printed ("No hits for " ++ g), .quit],
        .finished) := by
  obtain ⟨n, rfl⟩ : ∃ n, fuel = n + 1 := ⟨fuel - 1, by omega⟩
  rw [runLoop_one_tick]
  simp [main, mainBody, h1, h2, h3]

/-- Witness for C6 at a concrete world and query. -/
theorem loop_notfound_single_tick_witness :
    runLoop "X" noHitEnv 3 =
      ([.nav baseURL, .sendKeys "X", .click, .printed "No hits for X", .quit],
        .finished) :=
  loop_notfound_single_tick "X" noHitEnv 3 (by decide) rfl rfl rfl

/-- Claim C7 (counterexample): "fails with a fetch error exactly when the
HTTP response status is not successful" is false — status 304 is not in the
successful (2xx) class, yet `raise_for_status` does not raise for it, and
with a decodable body `download_image` succeeds with no error at all. -/
theorem download_not2xx_succeeds :
    spec_successful_2xx 304 = false ∧
    (download_image (fun _ => ⟨304, [0]⟩) (fun _ => some sampleImage) "u").2 =
      .ok sampleImage :=
  ⟨rfl, rfl⟩

/-- Claim C7 (amended): `download_image` issues exactly one GET (no retry);
it fails with a fetch error exactly when the status is in the 4xx/5xx error
range `400 ≤ status < 600` (not: whenever the status is non-2xx); it fails
with a decode error exactly when the status is outside that range and the
body is not a valid image; and a download failure propagates to the caller
of `main`, aborting the iteration before any display. -/
theorem download_image_contract (get : String → HttpResponse)
    (decode : List Nat → Option RasterImage) (url : String) :
    (download_image get decode url).1 = [url] ∧
    ((download_image get decode url).2 = .error (.httpError (get url).status) ↔
      400 ≤ (get url).status ∧ (get url).status < 600) ∧
    ((download_image get decode url).2 = .error .decodeError ↔
      ((get url).status < 400 ∨ 600 ≤ (get url).status) ∧
        decode (get url).content = none) ∧
    (∀ (g : String) (env : Env) (devAttr tissueAttr : String) (e : DownloadError),
      env.hasSearchBox = true → env.hasSearchButton = true →
      env.graphLink = some (devAttr, tissueAttr) →
      (download_image env.get env.decode (baseURL ++ devAttr)).2 = .error e →
      (main g g env).2 = .error (.downloadError e) ∧
        Event.displayed ∉ (main g g env).1) := by
  refine ⟨rfl, ?_, ?_, ?_⟩
  · by_cases hs : 400 ≤ (get url).status ∧ (get url).status < 600
    · simp [download_image, raise_for_status, hs]
    · cases hd : decode (get url).content with
      | none => simp [download_image, raise_for_status, hs, hd]
      | some img => simp [download_image, raise_for_status, hs, hd]
  · by_cases hs : 400 ≤ (get url).status ∧ (get url).status < 600
    · simp [download_image, raise_for_status, hs]
    · cases hd : decode (get url).content with
      | none => simp [download_image, raise_for_status, hs, hd]; omega
      | some img => simp [download_image, raise_for_status, hs, hd]
  · intro g env devAttr tissueAttr e h1 h2 h3 herr
    constructor
    · rw [main_snd]
      simp only [mainBody, h1, h2, h3, Bool.true_eq_false, if_false, ite_false]
      rw [herr]
    · rw [main_fst]
      simp only [mainBody, h1, h2, h3, Bool.true_eq_false, if_false, ite_false,
        download_image_fst]
      rw [herr]
      simp

/-- Witness for the amended C7: a 404 response yields a fetch error from a
single GET, and in a world where every GET is a 404 the run propagates that
error out of `main` without displaying anything. -/
theorem download_image_contract_witness :
    (download_image (fun _ => ⟨404, [0]⟩) (fun _ => some sampleImage) "u").1 = ["u"] ∧
    (download_image (fun _ => ⟨404, [0]⟩) (fun _ => some sampleImage) "u").2 =
      .error (.httpError 404) ∧
    (main "g" "g" fetchFailEnv).2 = .error (.downloadError (.httpError 404)) ∧
    Event.displayed ∉ (main "g" "g" fetchFailEnv).1 := by
  refine ⟨(download_image_contract (fun _ => ⟨404, [0]⟩) (fun _ => some sampleImage) "u").1,
    (download_image_contract (fun _ => ⟨404, [0]⟩) (fun _ => some sampleImage) "u").2.1.mpr
      (by decide), ?_, ?_⟩
  · exact ((download_image_contract (fun _ => ⟨404, [0]⟩) (fun _ => some sampleImage)
      "u").2.2.2 "g" fetchFailEnv "dev.png" "tissue.png" (.httpError 404)
      rfl rfl rfl rfl).1
  · exact ((download_image_contract (fun _ => ⟨404, [0]⟩) (fun _ => some sampleImage)
      "u").2.2.2 "g" fetchFailEnv "dev.png" "tissue.png" (.httpError 404)
      rfl rfl rfl rfl).2

/-- Claim C8: with any positive fuel, whatever the world does — hit, no hit,
missing search box/button, failed download — the run's trace executes
`driver.quit()` exactly once, it is the very last event (never mid-loop
before the run ends), and the run ends (finished or errored, never out of
fuel): the `try/finally` releases the session on every exit path. -/
theorem session_released_once (g : String) (env : Env) (fuel : Nat) (hf : 1 ≤ fuel) :
    (runLoop g env fuel).1.count Event.quit = 1 ∧
    (runLoop g env fuel).1.getLast? = some Event.quit ∧
    ((runLoop g env fuel).2 = .finished ∨
      ∃ e, (runLoop g env fuel).2 = .errored e) := by
  obtain ⟨n, rfl⟩ : ∃ n, fuel = n + 1 := ⟨fuel - 1, by omega⟩
  rw [runLoop_one_tick]
  refine ⟨?_, ?_, ?_⟩
  · have h0 : (mainBody g g env).1.count Event.quit = 0 :=
      List.count_eq_zero.mpr (quit_not_mem_mainBody g g env)
    simp [main_fst, List.count_append, h0]
  · simp only [main_fst]
    exact getLast?_append_singleton _ _
  · cases hm : (main g g env).2 with
    | error e => exact Or.inr ⟨e, by simp⟩
    | ok r => exact Or.inl (by simp)

/-- Witness for C8 at a concrete world (a fetch failure) and fuel 1. -/
theorem session_released_once_witness :
    (runLoop "X" fetchFailEnv 1).1.count Event.quit = 1 ∧
    (runLoop "X" fetchFailEnv 1).1.getLast? = some Event.quit ∧
    ((runLoop "X" fetchFailEnv 1).2 = .finished ∨
      ∃ e, (runLoop "X" fetchFailEnv 1).2 = .errored e) :=
  session_released_once "X" fetchFailEnv 1 (by decide)

/-- Claim C9: `main` ignores its `gene` parameter — with the same
process-global `args.gene` and the same world, `main g₁` and `main g₂`
produce identical traces (same search keystrokes, same "No hits" message)
and identical outcomes, because lines 50 and 57 read the global `args.gene`
rather than the parameter. -/
theorem main_ignores_gene_param (g₁ g₂ argsGene : String) (env : Env) :
    main g₁ argsGene env = main g₂ argsGene env := rfl

end Ricexpro
